import Mathlib

/-!
# TwoThirdsAverage — verification of the game contracts

Shallow embedding of the two Solidity game contracts of the repository:

* `V1` embeds `src/contracts/TwoThirdsAverageGame.sol` (timestamp deadlines,
  `forceStateTransition`, six phases, no cancellation state);
* `V2` embeds the block-deadline variant (`advancePhase`, `calculateResult`,
  `reclaimWager`, and a seventh `Abgebrochen` phase).

Addresses, byte strings and amounts are modelled as `Nat`; Solidity 0.8
checked arithmetic cannot wrap, and all quantities involved stay far below
`2^256`, so no explicit modulus is needed. A revert is an `Except.error`
carrying the revert string of the source; a reverted call leaves the state
unchanged. `keccak256 ∘ abi.encodePacked` is abstracted as a function
`List Nat → Nat` on the list of packed arguments.
-/

namespace TTA

namespace V1

inductive SpielPhase where
  | Registrierung
  | Commit
  | Reveal
  | Berechnung
  | Auszahlung
  | Abgeschlossen
deriving DecidableEq, Repr

structure SpielerInfo where
  wagerAmount : Nat
  commitment : Nat
  revealedNumber : Nat
  hasCommitted : Bool
  hasRevealed : Bool
  hasWithdrawn : Bool
deriving DecidableEq, Repr

def emptySpieler : SpielerInfo := ⟨0, 0, 0, false, false, false⟩

structure GameState where
  aktuellePhase : SpielPhase
  spielerDaten : Nat → SpielerInfo
  spielerListe : List Nat
  WAGER_AMOUNT : Nat
  SERVICE_FEE_PERCENTAGE : Nat
  deadline : Nat
  pot : Nat
  serviceFeeWithdrawn : Bool
  winner : Nat
  averageValue : Nat
  targetValue : Nat
  winningDistance : Nat
  potentialWinners : List Nat
  owner : Nat

def MIN_PLAYERS : Nat := 3
def REGISTRATION_DURATION : Nat := 600
def COMMIT_DURATION : Nat := 300
def REVEAL_DURATION : Nat := 300

def UINT256_MAX : Nat := 2 ^ 256 - 1

def setSpieler (s : GameState) (a : Nat) (info : SpielerInfo) : GameState :=
  { s with spielerDaten := fun x => if x = a then info else s.spielerDaten x }

/-- The constructor of `TwoThirdsAverageGame` (V1). -/
def mkGame (wager fee ownerAddr timestamp : Nat) : Except String GameState :=
  if wager = 0 then .error "Wetteinsatz muss groesser als 0 sein."
  else if fee > 100 then .error "Servicegebuehr darf maximal 100% sein."
  else .ok {
    aktuellePhase := .Registrierung
    spielerDaten := fun _ => emptySpieler
    spielerListe := []
    WAGER_AMOUNT := wager
    SERVICE_FEE_PERCENTAGE := fee
    deadline := timestamp + REGISTRATION_DURATION
    pot := 0
    serviceFeeWithdrawn := false
    winner := 0
    averageValue := 0
    targetValue := 0
    winningDistance := 0
    potentialWinners := []
    owner := ownerAddr }

/-- `beitreten()` — join the game, paying `msg.value`. -/
def beitreten (s : GameState) (sender value timestamp : Nat) :
    Except String GameState :=
  if s.aktuellePhase ≠ .Registrierung then
    .error "Funktion in dieser Phase nicht erlaubt."
  else if ¬ timestamp < s.deadline then
    .error "Deadline fuer diese Aktion ist abgelaufen."
  else if value ≠ s.WAGER_AMOUNT then
    .error "Falscher Wetteinsatz gesendet."
  else if (s.spielerDaten sender).wagerAmount ≠ 0 then
    .error "Spieler hat bereits teilgenommen."
  else
    .ok { setSpieler s sender ⟨value, 0, 0, false, false, false⟩ with
            spielerListe := s.spielerListe ++ [sender]
            pot := s.pot + value }

/-- `commit(bytes32)` — submit a commitment hash. -/
def commit (s : GameState) (sender c timestamp : Nat) :
    Except String GameState :=
  if s.aktuellePhase ≠ .Commit then
    .error "Funktion in dieser Phase nicht erlaubt."
  else if ¬ timestamp < s.deadline then
    .error "Deadline fuer diese Aktion ist abgelaufen."
  else if ¬ (s.spielerDaten sender).wagerAmount > 0 then
    .error "Nur registrierte Spieler duerfen committen."
  else if (s.spielerDaten sender).hasCommitted then
    .error "Spieler hat bereits einen Commit eingereicht."
  else if c = 0 then
    .error "Commitment darf nicht leer sein."
  else
    .ok (setSpieler s sender
          { s.spielerDaten sender with commitment := c, hasCommitted := true })

/-- `reveal(uint16, bytes32)` — open a commitment.  `keccak` abstracts
`keccak256(abi.encodePacked(_number, _salt, msg.sender))`. -/
def reveal (keccak : List Nat → Nat) (s : GameState)
    (sender number salt timestamp : Nat) : Except String GameState :=
  if s.aktuellePhase ≠ .Reveal then
    .error "Funktion in dieser Phase nicht erlaubt."
  else if ¬ timestamp < s.deadline then
    .error "Deadline fuer diese Aktion ist abgelaufen."
  else if ¬ (s.spielerDaten sender).wagerAmount > 0 then
    .error "Nur registrierte Spieler duerfen aufdecken."
  else if ¬ (s.spielerDaten sender).hasCommitted then
    .error "Spieler muss zuerst einen Commit einreichen."
  else if (s.spielerDaten sender).hasRevealed then
    .error "Spieler hat bereits aufgedeckt."
  else if ¬ number ≤ 1000 then
    .error "Zahl muss zwischen 0 und 1000 liegen."
  else if ¬ keccak [number, salt, sender] = (s.spielerDaten sender).commitment then
    .error "Ungueltiger Reveal. Zahl oder Salt sind falsch."
  else
    .ok (setSpieler s sender
          { s.spielerDaten sender with revealedNumber := number, hasRevealed := true })

/-- `forceStateTransition()` — the phase-advance operation.  Note the
fall-through: in `Berechnung` and `Abgeschlossen` no branch matches and the
function returns successfully without touching the state. -/
def forceStateTransition (s : GameState) (sender timestamp : Nat) :
    Except String GameState :=
  if s.aktuellePhase = .Registrierung then
    if ¬ (timestamp ≥ s.deadline ∨ sender = s.owner) then
      .error "Uebergang noch nicht erlaubt."
    else if ¬ s.spielerListe.length ≥ MIN_PLAYERS then
      .error "Nicht genuegend Spieler beigetreten."
    else
      .ok { s with aktuellePhase := .Commit,
                   deadline := timestamp + COMMIT_DURATION }
  else if s.aktuellePhase = .Commit then
    if ¬ (timestamp ≥ s.deadline ∨ sender = s.owner) then
      .error "Uebergang noch nicht erlaubt."
    else
      .ok { s with aktuellePhase := .Reveal,
                   deadline := timestamp + REVEAL_DURATION }
  else if s.aktuellePhase = .Reveal then
    if ¬ (timestamp ≥ s.deadline ∨ sender = s.owner) then
      .error "Uebergang noch nicht erlaubt."
    else
      .ok { s with aktuellePhase := .Berechnung, deadline := 0 }
  else if s.aktuellePhase = .Auszahlung then
    if ¬ sender = s.owner then
      .error "Nur Spielleiter kann Spiel beenden."
    else if ¬ (s.serviceFeeWithdrawn ∧ (s.spielerDaten s.winner).hasWithdrawn) then
      .error "Auszahlungen noch nicht abgeschlossen."
    else
      .ok { s with aktuellePhase := .Abgeschlossen }
  else
    .ok s

/-- Sum of `revealedNumber` over revealed players (first loop of
`berechneErgebnisUndErmittleGewinner`). -/
def sumRevealed (s : GameState) : Nat :=
  s.spielerListe.foldl
    (fun acc a =>
      if (s.spielerDaten a).hasRevealed then acc + (s.spielerDaten a).revealedNumber
      else acc) 0

/-- Count of revealed players (first loop). -/
def countRevealed (s : GameState) : Nat :=
  s.spielerListe.foldl
    (fun acc a => if (s.spielerDaten a).hasRevealed then acc + 1 else acc) 0

/-- `differenz` — absolute distance of a revealed number to the target. -/
def differenz (rn target : Nat) : Nat :=
  if rn > target then rn - target else target - rn

/-- One step of the winner-search loop, acting on the running pair
`(winningDistance, potentialWinners)`. -/
def tieStep (s : GameState) (target : Nat) (p : Nat × List Nat) (a : Nat) :
    Nat × List Nat :=
  if (s.spielerDaten a).hasRevealed then
    let d := differenz (s.spielerDaten a).revealedNumber target
    if d < p.1 then (d, [a])
    else if d = p.1 then (p.1, p.2 ++ [a])
    else p
  else p

/-- The second loop of `berechneErgebnisUndErmittleGewinner`: minimum
distance and the list of players achieving it. -/
def tieLoop (s : GameState) (target : Nat) : Nat × List Nat :=
  s.spielerListe.foldl (tieStep s target) (UINT256_MAX, [])

/-- `summe / anzahlAufgedeckterSpieler` — the local `averageValue`. -/
def avgOf (s : GameState) : Nat := sumRevealed s / countRevealed s

/-- `(averageValue * 2) / 3` — the local `targetValue`. -/
def targetOf (s : GameState) : Nat := avgOf s * 2 / 3

/-- The `potentialWinners` array after the winner-search loop. -/
def pwsOf (s : GameState) : List Nat := (tieLoop s (targetOf s)).2

/-- The `winningDistance` after the winner-search loop. -/
def wdOf (s : GameState) : Nat := (tieLoop s (targetOf s)).1

/-- The selected winner: sole candidate, or tie-break by
`keccak256(abi.encodePacked(block.timestamp, block.prevrandao))` modulo the
candidate count. -/
def winnerOf (keccak : List Nat → Nat) (s : GameState)
    (timestamp prevrandao : Nat) : Nat :=
  if (pwsOf s).length = 1 then (pwsOf s).getD 0 0
  else (pwsOf s).getD (keccak [timestamp, prevrandao] % (pwsOf s).length) 0

/-- `berechneErgebnisUndErmittleGewinner()` — owner-only winner computation
(V1).  The tie-break hashes `(block.timestamp, block.prevrandao)` — and
nothing else. -/
def berechneErgebnisUndErmittleGewinner (keccak : List Nat → Nat)
    (s : GameState) (sender timestamp prevrandao : Nat) :
    Except String GameState :=
  if sender ≠ s.owner then .error "OwnableUnauthorizedAccount"
  else if s.aktuellePhase ≠ .Berechnung then
    .error "Funktion in dieser Phase nicht erlaubt."
  else if countRevealed s = 0 then
    .error "Niemand hat aufgedeckt, Spiel kann nicht ausgewertet werden."
  else if (pwsOf s).length = 0 then
    .error "Interner Fehler: Kein potenzieller Gewinner gefunden."
  else
    .ok { s with averageValue := avgOf s
                 targetValue := targetOf s
                 winningDistance := wdOf s
                 potentialWinners := pwsOf s
                 winner := winnerOf keccak s timestamp prevrandao
                 aktuellePhase := .Auszahlung }

/-- `withdrawPrize()` — the winner pulls `pot - serviceFee`.  The second
component of the result is the amount transferred to the caller. -/
def withdrawPrize (s : GameState) (sender : Nat) :
    Except String (GameState × Nat) :=
  if s.aktuellePhase ≠ .Auszahlung then
    .error "Funktion in dieser Phase nicht erlaubt."
  else if sender ≠ s.winner then
    .error "Nur der Gewinner kann das Preisgeld abheben."
  else if (s.spielerDaten sender).hasWithdrawn then
    .error "Gewinner hat bereits abgehoben."
  else
    .ok (setSpieler s sender
          { s.spielerDaten sender with hasWithdrawn := true },
        s.pot - s.pot * s.SERVICE_FEE_PERCENTAGE / 100)

/-- `withdrawServiceFee()` — the owner pulls the service fee.  V1 performs
no phase transition here. -/
def withdrawServiceFee (s : GameState) (sender : Nat) :
    Except String (GameState × Nat) :=
  if sender ≠ s.owner then .error "OwnableUnauthorizedAccount"
  else if s.aktuellePhase ≠ .Auszahlung then
    .error "Funktion in dieser Phase nicht erlaubt."
  else if s.serviceFeeWithdrawn then
    .error "Servicegebuehr wurde bereits abgehoben."
  else
    .ok ({ s with serviceFeeWithdrawn := true },
        s.pot * s.SERVICE_FEE_PERCENTAGE / 100)

/-- `getSpielerAnzahl()`. -/
def getSpielerAnzahl (s : GameState) : Nat := s.spielerListe.length

/-- Result of a call when reverts roll back: the new state on success, the
old state on a revert. -/
def orElseState {α : Type} (r : Except String α) (s : α) : α :=
  match r with
  | .ok t => t
  | .error _ => s

/-- One external call to the contract, with its environment packed in. -/
inductive Op where
  | beitreten (sender value timestamp : Nat)
  | commit (sender c timestamp : Nat)
  | reveal (sender number salt timestamp : Nat)
  | forceStateTransition (sender timestamp : Nat)
  | berechne (sender timestamp prevrandao : Nat)
  | withdrawPrize (sender : Nat)
  | withdrawServiceFee (sender : Nat)

/-- Executing one call: a revert (error) leaves the state unchanged. -/
def step (keccak : List Nat → Nat) (s : GameState) : Op → GameState
  | .beitreten sender value timestamp =>
      orElseState (beitreten s sender value timestamp) s
  | .commit sender c timestamp => orElseState (commit s sender c timestamp) s
  | .reveal sender number salt timestamp =>
      orElseState (reveal keccak s sender number salt timestamp) s
  | .forceStateTransition sender timestamp =>
      orElseState (forceStateTransition s sender timestamp) s
  | .berechne sender timestamp prevrandao =>
      orElseState (berechneErgebnisUndErmittleGewinner keccak s sender timestamp prevrandao) s
  | .withdrawPrize sender => orElseState ((withdrawPrize s sender).map Prod.fst) s
  | .withdrawServiceFee sender =>
      orElseState ((withdrawServiceFee s sender).map Prod.fst) s

/-- Executing a sequence of calls. -/
def exec (keccak : List Nat → Nat) (s : GameState) (ops : List Op) : GameState :=
  ops.foldl (step keccak) s

end V1

/-!
## V2 — the block-deadline variant of the contract

This contract (present in the repository next to the timestamp-based one)
has a seventh phase `Abgebrochen` (cancelled), a permissionless
`advancePhase` that cancels the game when fewer than `MIN_PLAYERS` joined,
a permissionless `calculateResult` that cancels on zero reveals, withdrawal
functions that perform the `Auszahlung → Abgeschlossen` transition
themselves, and `reclaimWager` for refunds after cancellation.
-/

namespace V2

inductive SpielPhase where
  | Registrierung
  | Commit
  | Reveal
  | Berechnung
  | Auszahlung
  | Abgeschlossen
  | Abgebrochen
deriving DecidableEq, Repr

structure SpielerInfo where
  wagerAmount : Nat
  commitment : Nat
  revealedNumber : Nat
  hasCommitted : Bool
  hasRevealed : Bool
  hasWithdrawn : Bool
deriving DecidableEq, Repr

def emptySpieler : SpielerInfo := ⟨0, 0, 0, false, false, false⟩

structure GameState where
  aktuellePhase : SpielPhase
  spielerDaten : Nat → SpielerInfo
  spielerListe : List Nat
  WAGER_AMOUNT : Nat
  SERVICE_FEE_PERCENTAGE : Nat
  deadlineBlock : Nat
  pot : Nat
  serviceFeeWithdrawn : Bool
  winner : Nat
  averageValue : Nat
  targetValue : Nat
  winningDistance : Nat
  potentialWinners : List Nat
  owner : Nat

def MIN_PLAYERS : Nat := 3
def REGISTRATION_BLOCKS : Nat := 10
def COMMIT_BLOCKS : Nat := 10
def REVEAL_BLOCKS : Nat := 10

def UINT256_MAX : Nat := 2 ^ 256 - 1

def setSpieler (s : GameState) (a : Nat) (info : SpielerInfo) : GameState :=
  { s with spielerDaten := fun x => if x = a then info else s.spielerDaten x }

/-- The constructor of the block-deadline contract. -/
def mkGame (wager fee ownerAddr blockNumber : Nat) : Except String GameState :=
  if wager = 0 then .error "Wetteinsatz muss groesser als 0 sein."
  else if fee > 100 then .error "Servicegebuehr darf maximal 100% sein."
  else .ok {
    aktuellePhase := .Registrierung
    spielerDaten := fun _ => emptySpieler
    spielerListe := []
    WAGER_AMOUNT := wager
    SERVICE_FEE_PERCENTAGE := fee
    deadlineBlock := blockNumber + REGISTRATION_BLOCKS
    pot := 0
    serviceFeeWithdrawn := false
    winner := 0
    averageValue := 0
    targetValue := 0
    winningDistance := 0
    potentialWinners := []
    owner := ownerAddr }

/-- `beitreten()` (V2) — join the game, paying `msg.value`. -/
def beitreten (s : GameState) (sender value blockNumber : Nat) :
    Except String GameState :=
  if s.aktuellePhase ≠ .Registrierung then
    .error "Funktion in dieser Phase nicht erlaubt."
  else if ¬ blockNumber < s.deadlineBlock then
    .error "Deadline-Block fuer diese Aktion ist erreicht."
  else if value ≠ s.WAGER_AMOUNT then
    .error "Falscher Wetteinsatz gesendet."
  else if (s.spielerDaten sender).wagerAmount ≠ 0 then
    .error "Spieler hat bereits teilgenommen."
  else
    .ok { setSpieler s sender ⟨value, 0, 0, false, false, false⟩ with
            spielerListe := s.spielerListe ++ [sender]
            pot := s.pot + value }

/-- `commit(bytes32)` (V2). -/
def commit (s : GameState) (sender c blockNumber : Nat) :
    Except String GameState :=
  if s.aktuellePhase ≠ .Commit then
    .error "Funktion in dieser Phase nicht erlaubt."
  else if ¬ blockNumber < s.deadlineBlock then
    .error "Deadline-Block fuer diese Aktion ist erreicht."
  else if ¬ (s.spielerDaten sender).wagerAmount > 0 then
    .error "Nur registrierte Spieler duerfen committen."
  else if (s.spielerDaten sender).hasCommitted then
    .error "Spieler hat bereits einen Commit eingereicht."
  else if c = 0 then
    .error "Commitment darf nicht leer sein."
  else
    .ok (setSpieler s sender
          { s.spielerDaten sender with commitment := c, hasCommitted := true })

/-- `reveal(uint16, bytes32)` (V2). -/
def reveal (keccak : List Nat → Nat) (s : GameState)
    (sender number salt blockNumber : Nat) : Except String GameState :=
  if s.aktuellePhase ≠ .Reveal then
    .error "Funktion in dieser Phase nicht erlaubt."
  else if ¬ blockNumber < s.deadlineBlock then
    .error "Deadline-Block fuer diese Aktion ist erreicht."
  else if ¬ (s.spielerDaten sender).wagerAmount > 0 then
    .error "Nur registrierte Spieler duerfen aufdecken."
  else if ¬ (s.spielerDaten sender).hasCommitted then
    .error "Spieler muss zuerst einen Commit einreichen."
  else if (s.spielerDaten sender).hasRevealed then
    .error "Spieler hat bereits aufgedeckt."
  else if ¬ number ≤ 1000 then
    .error "Zahl muss zwischen 0 und 1000 liegen."
  else if ¬ keccak [number, salt, sender] = (s.spielerDaten sender).commitment then
    .error "Ungueltiger Reveal: Zahl oder Salt sind falsch."
  else
    .ok (setSpieler s sender
          { s.spielerDaten sender with revealedNumber := number, hasRevealed := true })

/-- `advancePhase()` (V2) — permissionless phase advance; with fewer than
`MIN_PLAYERS` at the registration deadline the game is cancelled. -/
def advancePhase (s : GameState) (blockNumber : Nat) :
    Except String GameState :=
  if ¬ blockNumber ≥ s.deadlineBlock then
    .error "Deadline-Block fuer diese Aktion ist noch nicht erreicht."
  else if s.aktuellePhase = .Registrierung then
    if s.spielerListe.length < MIN_PLAYERS then
      .ok { s with aktuellePhase := .Abgebrochen }
    else
      .ok { s with aktuellePhase := .Commit,
                   deadlineBlock := blockNumber + COMMIT_BLOCKS }
  else if s.aktuellePhase = .Commit then
    .ok { s with aktuellePhase := .Reveal,
                 deadlineBlock := blockNumber + REVEAL_BLOCKS }
  else if s.aktuellePhase = .Reveal then
    .ok { s with aktuellePhase := .Berechnung, deadlineBlock := 0 }
  else
    .ok s

def sumRevealed (s : GameState) : Nat :=
  s.spielerListe.foldl
    (fun acc a =>
      if (s.spielerDaten a).hasRevealed then acc + (s.spielerDaten a).revealedNumber
      else acc) 0

def countRevealed (s : GameState) : Nat :=
  s.spielerListe.foldl
    (fun acc a => if (s.spielerDaten a).hasRevealed then acc + 1 else acc) 0

def differenz (rn target : Nat) : Nat :=
  if rn > target then rn - target else target - rn

def tieStep (s : GameState) (target : Nat) (p : Nat × List Nat) (a : Nat) :
    Nat × List Nat :=
  if (s.spielerDaten a).hasRevealed then
    let d := differenz (s.spielerDaten a).revealedNumber target
    if d < p.1 then (d, [a])
    else if d = p.1 then (p.1, p.2 ++ [a])
    else p
  else p

def tieLoop (s : GameState) (target : Nat) : Nat × List Nat :=
  s.spielerListe.foldl (tieStep s target) (UINT256_MAX, [])

def avgOf (s : GameState) : Nat := sumRevealed s / countRevealed s

def targetOf (s : GameState) : Nat := avgOf s * 2 / 3

def pwsOf (s : GameState) : List Nat := (tieLoop s (targetOf s)).2

def wdOf (s : GameState) : Nat := (tieLoop s (targetOf s)).1

/-- The V2 winner selection: sole candidate, or tie-break by
`keccak256(abi.encodePacked(block.timestamp, block.prevrandao, pot))`
modulo the candidate count — the pot is hashed in here. -/
def winnerOf (keccak : List Nat → Nat) (s : GameState)
    (timestamp prevrandao : Nat) : Nat :=
  if (pwsOf s).length = 1 then (pwsOf s).getD 0 0
  else (pwsOf s).getD (keccak [timestamp, prevrandao, s.pot] % (pwsOf s).length) 0

/-- `calculateResult()` (V2) — permissionless winner computation; zero
reveals cancel the game instead of reverting. -/
def calculateResult (keccak : List Nat → Nat) (s : GameState)
    (timestamp prevrandao : Nat) : Except String GameState :=
  if s.aktuellePhase ≠ .Berechnung then
    .error "Funktion in dieser Phase nicht erlaubt."
  else if countRevealed s = 0 then
    .ok { s with aktuellePhase := .Abgebrochen }
  else
    .ok { s with averageValue := avgOf s
                 targetValue := targetOf s
                 winningDistance := wdOf s
                 potentialWinners := pwsOf s
                 winner := winnerOf keccak s timestamp prevrandao
                 aktuellePhase := .Auszahlung }

/-- `withdrawPrize()` (V2) — pays `pot - serviceFee` and, if the service
fee is already withdrawn, completes the game. -/
def withdrawPrize (s : GameState) (sender : Nat) :
    Except String (GameState × Nat) :=
  if s.aktuellePhase ≠ .Auszahlung then
    .error "Funktion in dieser Phase nicht erlaubt."
  else if sender ≠ s.winner then
    .error "Nur der Gewinner kann das Preisgeld abheben."
  else if (s.spielerDaten sender).hasWithdrawn then
    .error "Gewinner hat bereits abgehoben."
  else
    .ok ((if s.serviceFeeWithdrawn then
            { setSpieler s sender
                { s.spielerDaten sender with hasWithdrawn := true } with
              aktuellePhase := .Abgeschlossen }
          else
            setSpieler s sender
              { s.spielerDaten sender with hasWithdrawn := true }),
        s.pot - s.pot * s.SERVICE_FEE_PERCENTAGE / 100)

/-- `withdrawServiceFee()` (V2) — pays the fee and, if the winner has
already withdrawn, completes the game. -/
def withdrawServiceFee (s : GameState) (sender : Nat) :
    Except String (GameState × Nat) :=
  if sender ≠ s.owner then .error "OwnableUnauthorizedAccount"
  else if s.aktuellePhase ≠ .Auszahlung then
    .error "Funktion in dieser Phase nicht erlaubt."
  else if s.serviceFeeWithdrawn then
    .error "Servicegebuehr wurde bereits abgehoben."
  else
    .ok ((if s.winner ≠ 0 ∧ (s.spielerDaten s.winner).hasWithdrawn then
            { s with serviceFeeWithdrawn := true,
                     aktuellePhase := .Abgeschlossen }
          else { s with serviceFeeWithdrawn := true }),
        s.pot * s.SERVICE_FEE_PERCENTAGE / 100)

/-- `reclaimWager()` (V2) — after cancellation a joined player reclaims
their stake once. -/
def reclaimWager (s : GameState) (sender : Nat) :
    Except String (GameState × Nat) :=
  if s.aktuellePhase ≠ .Abgebrochen then
    .error "Funktion in dieser Phase nicht erlaubt."
  else if ¬ (s.spielerDaten sender).wagerAmount > 0 then
    .error "Nur Spieler koennen Einsatz zurueckfordern."
  else if (s.spielerDaten sender).hasWithdrawn then
    .error "Einsatz bereits zurueckgefordert."
  else
    .ok (setSpieler s sender
          { s.spielerDaten sender with hasWithdrawn := true },
        (s.spielerDaten sender).wagerAmount)

def getSpielerAnzahl (s : GameState) : Nat := s.spielerListe.length

end V2

/-!
## Spec-side definition for the tie-break refinement check

The spec states the tie-break index as a hash of (current time, the chain
unpredictability source, and the pot value) modulo the tie-set size.  This
definition follows the spec's words, to be compared with the code. -/

/-- The spec's tie-break index: `H(time ‖ prevrandao ‖ pot) mod tieSetSize`. -/
def specTieIndex (keccak : List Nat → Nat) (timestamp prevrandao pot n : Nat) :
    Nat :=
  keccak [timestamp, prevrandao, pot] % n

/-!
## Concrete fixture states

Small concrete game states used by counterexamples and witnesses.  Each is
a state the contract can reach (joins during registration, then forced
transitions). -/

/-- A player record directly after joining with stake `w`. -/
def joinedInfo (w : Nat) : V1.SpielerInfo := ⟨w, 0, 0, false, false, false⟩

/-- A player record after committing and revealing `rn` (stake `w`). -/
def revealedInfo (w rn : Nat) : V1.SpielerInfo := ⟨w, 1, rn, true, true, false⟩

/-- V1: registration phase, only 2 players joined, deadline 600. -/
def fixReg2 : V1.GameState :=
  { aktuellePhase := .Registrierung
    spielerDaten := fun a => if a = 1 ∨ a = 2 then joinedInfo 100 else V1.emptySpieler
    spielerListe := [1, 2]
    WAGER_AMOUNT := 100, SERVICE_FEE_PERCENTAGE := 10
    deadline := 600, pot := 200, serviceFeeWithdrawn := false
    winner := 0, averageValue := 0, targetValue := 0, winningDistance := 0
    potentialWinners := [], owner := 0 }

/-- V1: calculation phase, players 10/20/30 revealed 100/200/300. -/
def fixC3 : V1.GameState :=
  { aktuellePhase := .Berechnung
    spielerDaten := fun a =>
      if a = 10 then revealedInfo 100 100
      else if a = 20 then revealedInfo 100 200
      else if a = 30 then revealedInfo 100 300
      else V1.emptySpieler
    spielerListe := [10, 20, 30]
    WAGER_AMOUNT := 100, SERVICE_FEE_PERCENTAGE := 10
    deadline := 0, pot := 300, serviceFeeWithdrawn := false
    winner := 0, averageValue := 0, targetValue := 0, winningDistance := 0
    potentialWinners := [], owner := 0 }

/-- V1: calculation phase, players 1/2/3 revealed 4/8/0 — players 1 and 3
tie at distance 2 from the target. -/
def fixTie : V1.GameState :=
  { aktuellePhase := .Berechnung
    spielerDaten := fun a =>
      if a = 1 then revealedInfo 100 4
      else if a = 2 then revealedInfo 100 8
      else if a = 3 then revealedInfo 100 0
      else V1.emptySpieler
    spielerListe := [1, 2, 3]
    WAGER_AMOUNT := 100, SERVICE_FEE_PERCENTAGE := 10
    deadline := 0, pot := 300, serviceFeeWithdrawn := false
    winner := 0, averageValue := 0, targetValue := 0, winningDistance := 0
    potentialWinners := [], owner := 0 }

/-- V1: calculation phase, 3 players joined, nobody revealed. -/
def fixBer0 : V1.GameState :=
  { aktuellePhase := .Berechnung
    spielerDaten := fun a =>
      if a = 1 ∨ a = 2 ∨ a = 3 then joinedInfo 100 else V1.emptySpieler
    spielerListe := [1, 2, 3]
    WAGER_AMOUNT := 100, SERVICE_FEE_PERCENTAGE := 10
    deadline := 0, pot := 300, serviceFeeWithdrawn := false
    winner := 0, averageValue := 0, targetValue := 0, winningDistance := 0
    potentialWinners := [], owner := 0 }

/-- V1: payout phase, winner is player 1, nothing withdrawn yet. -/
def fixPayout : V1.GameState :=
  { aktuellePhase := .Auszahlung
    spielerDaten := fun a =>
      if a = 1 then revealedInfo 100 100
      else if a = 2 then revealedInfo 100 200
      else if a = 3 then revealedInfo 100 300
      else V1.emptySpieler
    spielerListe := [1, 2, 3]
    WAGER_AMOUNT := 100, SERVICE_FEE_PERCENTAGE := 10
    deadline := 0, pot := 300, serviceFeeWithdrawn := false
    winner := 1, averageValue := 200, targetValue := 133, winningDistance := 33
    potentialWinners := [1], owner := 0 }

/-- V1: commit phase with player 1 already joined. -/
def fixCommitPhase : V1.GameState :=
  { aktuellePhase := .Commit
    spielerDaten := fun a =>
      if a = 1 ∨ a = 2 ∨ a = 3 then joinedInfo 100 else V1.emptySpieler
    spielerListe := [1, 2, 3]
    WAGER_AMOUNT := 100, SERVICE_FEE_PERCENTAGE := 10
    deadline := 600, pot := 300, serviceFeeWithdrawn := false
    winner := 0, averageValue := 0, targetValue := 0, winningDistance := 0
    potentialWinners := [], owner := 0 }

/-- The concrete hash used in the C6 counterexample. -/
def kSum1 : List Nat → Nat := fun l => l.sum + 1

/-- The concrete hash used in the C4 counterexample. -/
def kLen : List Nat → Nat := fun l => l.length

/-- V1: reveal phase; player 1 committed `kSum1 [1001, 7, 1] = 1010`, i.e.
the hash of the out-of-range number 1001 with salt 7. -/
def fixRevealOOR : V1.GameState :=
  { aktuellePhase := .Reveal
    spielerDaten := fun a =>
      if a = 1 then ⟨100, 1010, 0, true, false, false⟩
      else if a = 2 ∨ a = 3 then joinedInfo 100
      else V1.emptySpieler
    spielerListe := [1, 2, 3]
    WAGER_AMOUNT := 100, SERVICE_FEE_PERCENTAGE := 10
    deadline := 600, pot := 300, serviceFeeWithdrawn := false
    winner := 0, averageValue := 0, targetValue := 0, winningDistance := 0
    potentialWinners := [], owner := 0 }

/-- Result of a paying call when reverts roll back. -/
def orElsePay (r : Except String (V1.GameState × Nat)) (s : V1.GameState) :
    V1.GameState × Nat :=
  match r with
  | .ok t => t
  | .error _ => (s, 0)

/-- State after the winner's withdrawal from `fixPayout`. -/
def c2s1 : V1.GameState := (orElsePay (V1.withdrawPrize fixPayout 1) fixPayout).1

/-- State after the game master's fee withdrawal from `c2s1`. -/
def c2s2 : V1.GameState := (orElsePay (V1.withdrawServiceFee c2s1 0) c2s1).1

/-- Result state of the winner computation on `fixC3`. -/
def c3res : V1.GameState :=
  V1.orElseState (V1.berechneErgebnisUndErmittleGewinner (fun _ => 0) fixC3 0 0 0) fixC3

/-- Result state of the winner computation on `fixTie` under `kLen`. -/
def c4res : V1.GameState :=
  V1.orElseState (V1.berechneErgebnisUndErmittleGewinner kLen fixTie 0 0 0) fixTie

/-- A V2 player record directly after joining with stake `w`. -/
def joinedInfo2 (w : Nat) : V2.SpielerInfo := ⟨w, 0, 0, false, false, false⟩

/-- A V2 player record after revealing `rn` (stake `w`). -/
def revealedInfo2 (w rn : Nat) : V2.SpielerInfo := ⟨w, 1, rn, true, true, false⟩

/-- V2: registration phase, only 2 players joined, deadline block 10. -/
def v2Reg2 : V2.GameState :=
  { aktuellePhase := .Registrierung
    spielerDaten := fun a => if a = 1 ∨ a = 2 then joinedInfo2 100 else V2.emptySpieler
    spielerListe := [1, 2]
    WAGER_AMOUNT := 100, SERVICE_FEE_PERCENTAGE := 10
    deadlineBlock := 10, pot := 200, serviceFeeWithdrawn := false
    winner := 0, averageValue := 0, targetValue := 0, winningDistance := 0
    potentialWinners := [], owner := 0 }

/-- V2: cancelled game with 2 joined players. -/
def v2Abg : V2.GameState := { v2Reg2 with aktuellePhase := .Abgebrochen }

/-- V2: payout phase, winner is player 1, nothing withdrawn yet. -/
def v2Payout : V2.GameState :=
  { aktuellePhase := .Auszahlung
    spielerDaten := fun a =>
      if a = 1 then revealedInfo2 100 100
      else if a = 2 then revealedInfo2 100 200
      else if a = 3 then revealedInfo2 100 300
      else V2.emptySpieler
    spielerListe := [1, 2, 3]
    WAGER_AMOUNT := 100, SERVICE_FEE_PERCENTAGE := 10
    deadlineBlock := 0, pot := 300, serviceFeeWithdrawn := false
    winner := 1, averageValue := 200, targetValue := 133, winningDistance := 33
    potentialWinners := [1], owner := 0 }

/-- V2: calculation phase, 3 players joined, nobody revealed. -/
def v2Ber0 : V2.GameState :=
  { aktuellePhase := .Berechnung
    spielerDaten := fun a =>
      if a = 1 ∨ a = 2 ∨ a = 3 then joinedInfo2 100 else V2.emptySpieler
    spielerListe := [1, 2, 3]
    WAGER_AMOUNT := 100, SERVICE_FEE_PERCENTAGE := 10
    deadlineBlock := 0, pot := 300, serviceFeeWithdrawn := false
    winner := 0, averageValue := 0, targetValue := 0, winningDistance := 0
    potentialWinners := [], owner := 0 }

/-- A freshly constructed V1 game (stake 100, 10% fee, owner 0, creation
time 0). -/
def c9init : V1.GameState :=
  V1.orElseState (V1.mkGame 100 10 0 0) fixReg2

/-- The pot-accounting invariant: the pot equals the stake times the
number of joined players (V1 never decreases `pot`, so this holds in every
reachable state). -/
def potInv (s : V1.GameState) : Prop :=
  s.pot = s.WAGER_AMOUNT * s.spielerListe.length

/-- After a successful prize withdrawal: the game is in (or beyond) the
payout phase and the winner's one-shot flag is set. -/
def winnerPaid (s : V1.GameState) : Prop :=
  (s.aktuellePhase = V1.SpielPhase.Auszahlung ∨
    s.aktuellePhase = V1.SpielPhase.Abgeschlossen) ∧
  (s.spielerDaten s.winner).hasWithdrawn = true

/-!
## Inversion lemmas

One lemma per operation, characterising the state a successful call can
produce.  These are shared across the claim theorems below.
-/

theorem beitreten_ok_shape {s : V1.GameState} {sender value t : Nat}
    {s' : V1.GameState} (h : V1.beitreten s sender value t = Except.ok s') :
    s.aktuellePhase = V1.SpielPhase.Registrierung ∧
    value = s.WAGER_AMOUNT ∧
    s' = { V1.setSpieler s sender ⟨value, 0, 0, false, false, false⟩ with
           spielerListe := s.spielerListe ++ [sender]
           pot := s.pot + value } := by
  unfold V1.beitreten at h
  repeat' split at h
  all_goals try exact Except.noConfusion h
  rename_i h1 _ h3 _
  injection h with h; subst h
  exact ⟨not_not.mp h1, not_not.mp h3, rfl⟩

theorem commit_ok_shape {s : V1.GameState} {sender c t : Nat}
    {s' : V1.GameState} (h : V1.commit s sender c t = Except.ok s') :
    s.aktuellePhase = V1.SpielPhase.Commit ∧
    s' = V1.setSpieler s sender
          { s.spielerDaten sender with commitment := c, hasCommitted := true } := by
  unfold V1.commit at h
  repeat' split at h
  all_goals try exact Except.noConfusion h
  rename_i h1 _ _ _ _
  injection h with h; subst h
  exact ⟨not_not.mp h1, rfl⟩

theorem reveal_ok_shape {keccak : List Nat → Nat} {s : V1.GameState}
    {sender number salt t : Nat} {s' : V1.GameState}
    (h : V1.reveal keccak s sender number salt t = Except.ok s') :
    s.aktuellePhase = V1.SpielPhase.Reveal ∧
    keccak [number, salt, sender] = (s.spielerDaten sender).commitment ∧
    s' = V1.setSpieler s sender
          { s.spielerDaten sender with
            revealedNumber := number, hasRevealed := true } := by
  unfold V1.reveal at h
  repeat' split at h
  all_goals try exact Except.noConfusion h
  rename_i h1 _ _ _ _ _ h7
  injection h with h; subst h
  exact ⟨not_not.mp h1, not_not.mp h7, rfl⟩

theorem force_ok_shape {s : V1.GameState} {sender t : Nat}
    {s' : V1.GameState}
    (h : V1.forceStateTransition s sender t = Except.ok s') :
    (s.aktuellePhase = V1.SpielPhase.Registrierung ∧
      s' = { s with aktuellePhase := V1.SpielPhase.Commit,
                    deadline := t + V1.COMMIT_DURATION }) ∨
    (s.aktuellePhase = V1.SpielPhase.Commit ∧
      s' = { s with aktuellePhase := V1.SpielPhase.Reveal,
                    deadline := t + V1.REVEAL_DURATION }) ∨
    (s.aktuellePhase = V1.SpielPhase.Reveal ∧
      s' = { s with aktuellePhase := V1.SpielPhase.Berechnung, deadline := 0 }) ∨
    (s.aktuellePhase = V1.SpielPhase.Auszahlung ∧
      s' = { s with aktuellePhase := V1.SpielPhase.Abgeschlossen }) ∨
    s' = s := by
  unfold V1.forceStateTransition at h
  repeat' split at h
  all_goals try exact Except.noConfusion h
  all_goals injection h with h
  all_goals subst h
  · rename_i h1 _ _; exact Or.inl ⟨h1, rfl⟩
  · rename_i h1 _; exact Or.inr (Or.inl ⟨h1, rfl⟩)
  · rename_i h1 _; exact Or.inr (Or.inr (Or.inl ⟨h1, rfl⟩))
  · rename_i h1 _ _; exact Or.inr (Or.inr (Or.inr (Or.inl ⟨h1, rfl⟩)))
  · exact Or.inr (Or.inr (Or.inr (Or.inr rfl)))

theorem berechne_ok_shape {keccak : List Nat → Nat} {s : V1.GameState}
    {sender t r : Nat} {s' : V1.GameState}
    (h : V1.berechneErgebnisUndErmittleGewinner keccak s sender t r =
          Except.ok s') :
    sender = s.owner ∧
    s.aktuellePhase = V1.SpielPhase.Berechnung ∧
    V1.countRevealed s ≠ 0 ∧
    (V1.pwsOf s).length ≠ 0 ∧
    s' = { s with averageValue := V1.avgOf s
                  targetValue := V1.targetOf s
                  winningDistance := V1.wdOf s
                  potentialWinners := V1.pwsOf s
                  winner := V1.winnerOf keccak s t r
                  aktuellePhase := V1.SpielPhase.Auszahlung } := by
  unfold V1.berechneErgebnisUndErmittleGewinner at h
  repeat' split at h
  all_goals try exact Except.noConfusion h
  rename_i h1 h2 h3 h4
  injection h with h; subst h
  exact ⟨not_not.mp h1, not_not.mp h2, h3, h4, rfl⟩

theorem withdrawPrize_ok_shape {s : V1.GameState} {sender : Nat}
    {s' : V1.GameState} {amt : Nat}
    (h : V1.withdrawPrize s sender = Except.ok (s', amt)) :
    s.aktuellePhase = V1.SpielPhase.Auszahlung ∧
    sender = s.winner ∧
    (s.spielerDaten sender).hasWithdrawn = false ∧
    s' = V1.setSpieler s sender
          { s.spielerDaten sender with hasWithdrawn := true } ∧
    amt = s.pot - s.pot * s.SERVICE_FEE_PERCENTAGE / 100 := by
  unfold V1.withdrawPrize at h
  repeat' split at h
  all_goals try exact Except.noConfusion h
  rename_i h1 h2 h3
  injection h with h
  injection h with ha hb
  subst ha; subst hb
  exact ⟨not_not.mp h1, not_not.mp h2, by simpa using h3, rfl, rfl⟩

theorem withdrawServiceFee_ok_shape {s : V1.GameState} {sender : Nat}
    {s' : V1.GameState} {amt : Nat}
    (h : V1.withdrawServiceFee s sender = Except.ok (s', amt)) :
    sender = s.owner ∧
    s.aktuellePhase = V1.SpielPhase.Auszahlung ∧
    s.serviceFeeWithdrawn = false ∧
    s' = { s with serviceFeeWithdrawn := true } ∧
    amt = s.pot * s.SERVICE_FEE_PERCENTAGE / 100 := by
  unfold V1.withdrawServiceFee at h
  repeat' split at h
  all_goals try exact Except.noConfusion h
  rename_i h1 h2 h3
  injection h with h
  injection h with ha hb
  subst ha; subst hb
  exact ⟨not_not.mp h1, not_not.mp h2, by simpa using h3, rfl, rfl⟩

theorem getD_mem_of_lt {α : Type} (l : List α) (n : Nat) (d : α)
    (h : n < l.length) : l.getD n d ∈ l := by
  induction l generalizing n with
  | nil => simp at h
  | cons a t ih =>
      cases n with
      | zero => simp [List.getD_cons_zero]
      | succ m =>
          rw [List.getD_cons_succ]
          exact List.mem_cons_of_mem a (ih m (by simpa using h))

/-- The winner-search fold: every surviving candidate is a revealed player
whose distance equals the running minimum, the running minimum never
increases, and it is a lower bound on the distance of every revealed
player seen so far. -/
theorem tieLoop_go_spec (s : V1.GameState) (target : Nat) :
    ∀ (l : List Nat) (d : Nat) (ws : List Nat),
      (∀ a ∈ ws, (s.spielerDaten a).hasRevealed = true ∧
          V1.differenz (s.spielerDaten a).revealedNumber target = d) →
      (∀ a ∈ (List.foldl (V1.tieStep s target) (d, ws) l).2,
          (s.spielerDaten a).hasRevealed = true ∧
          V1.differenz (s.spielerDaten a).revealedNumber target =
            (List.foldl (V1.tieStep s target) (d, ws) l).1) ∧
      (List.foldl (V1.tieStep s target) (d, ws) l).1 ≤ d ∧
      (∀ a ∈ l, (s.spielerDaten a).hasRevealed = true →
          (List.foldl (V1.tieStep s target) (d, ws) l).1 ≤
            V1.differenz (s.spielerDaten a).revealedNumber target) := by
  intro l
  induction l with
  | nil =>
      intro d ws hws
      exact ⟨hws, le_refl d, by simp⟩
  | cons a l ih =>
      intro d ws hws
      by_cases hrev : (s.spielerDaten a).hasRevealed = true
      · by_cases hlt : V1.differenz (s.spielerDaten a).revealedNumber target < d
        · have hstep : List.foldl (V1.tieStep s target) (d, ws) (a :: l) =
              List.foldl (V1.tieStep s target)
                (V1.differenz (s.spielerDaten a).revealedNumber target, [a]) l := by
            simp [V1.tieStep, hrev, hlt]
          rw [hstep]
          obtain ⟨h1, h2, h3⟩ :=
            ih (V1.differenz (s.spielerDaten a).revealedNumber target) [a]
              (by intro b hb
                  rcases List.mem_singleton.mp hb with rfl
                  exact ⟨hrev, rfl⟩)
          refine ⟨h1, le_trans h2 (le_of_lt hlt), ?_⟩
          intro b hb hrb
          rcases List.mem_cons.mp hb with rfl | hb
          · exact h2
          · exact h3 b hb hrb
        · by_cases heq : V1.differenz (s.spielerDaten a).revealedNumber target = d
          · have hstep : List.foldl (V1.tieStep s target) (d, ws) (a :: l) =
                List.foldl (V1.tieStep s target) (d, ws ++ [a]) l := by
              simp [V1.tieStep, hrev, hlt, heq]
            rw [hstep]
            obtain ⟨h1, h2, h3⟩ := ih d (ws ++ [a]) (by
              intro b hb
              rcases List.mem_append.mp hb with hb | hb
              · exact hws b hb
              · rcases List.mem_singleton.mp hb with rfl
                exact ⟨hrev, heq⟩)
            refine ⟨h1, h2, ?_⟩
            intro b hb hrb
            rcases List.mem_cons.mp hb with rfl | hb
            · rw [heq]; exact h2
            · exact h3 b hb hrb
          · have hstep : List.foldl (V1.tieStep s target) (d, ws) (a :: l) =
                List.foldl (V1.tieStep s target) (d, ws) l := by
              simp [V1.tieStep, hrev, hlt, heq]
            rw [hstep]
            obtain ⟨h1, h2, h3⟩ := ih d ws hws
            refine ⟨h1, h2, ?_⟩
            intro b hb hrb
            rcases List.mem_cons.mp hb with rfl | hb
            · have hd : d < V1.differenz (s.spielerDaten b).revealedNumber target :=
                lt_of_le_of_ne (not_lt.mp hlt) (fun hx => heq hx.symm)
              exact le_trans h2 (le_of_lt hd)
            · exact h3 b hb hrb
      · have hstep : List.foldl (V1.tieStep s target) (d, ws) (a :: l) =
            List.foldl (V1.tieStep s target) (d, ws) l := by
          simp [V1.tieStep, hrev]
        rw [hstep]
        obtain ⟨h1, h2, h3⟩ := ih d ws hws
        refine ⟨h1, h2, ?_⟩
        intro b hb hrb
        rcases List.mem_cons.mp hb with rfl | hb
        · exact absurd hrb hrev
        · exact h3 b hb hrb

/-!
## Claims
-/

/-- C10 (counterexample): in the `Berechnung` phase the phase-advance
operation `forceStateTransition` returns successfully with the state
unchanged — a silent no-op — instead of being rejected. -/
theorem c10_counterexample :
    V1.forceStateTransition fixBer0 5 1000 = Except.ok fixBer0 := rfl

/-- C10 (amended): `forceStateTransition` silently no-ops in the
`Berechnung` and `Abgeschlossen` phases (returns success, state unchanged);
in every other phase a successful call changes the phase, and every other
exposed operation's successful call makes an observable state change
(member added, a one-shot flag flipped, or the phase moved). -/
theorem c10_amended :
    (∀ (s : V1.GameState) (sender t : Nat),
        s.aktuellePhase = V1.SpielPhase.Berechnung ∨
          s.aktuellePhase = V1.SpielPhase.Abgeschlossen →
        V1.forceStateTransition s sender t = Except.ok s) ∧
    (∀ (s : V1.GameState) (sender t : Nat) (s' : V1.GameState),
        s.aktuellePhase ≠ V1.SpielPhase.Berechnung →
        s.aktuellePhase ≠ V1.SpielPhase.Abgeschlossen →
        V1.forceStateTransition s sender t = Except.ok s' →
        s'.aktuellePhase ≠ s.aktuellePhase) ∧
    (∀ (s : V1.GameState) (sender value t : Nat) (s' : V1.GameState),
        V1.beitreten s sender value t = Except.ok s' →
        s'.spielerListe.length = s.spielerListe.length + 1) ∧
    (∀ (s : V1.GameState) (sender c t : Nat) (s' : V1.GameState),
        V1.commit s sender c t = Except.ok s' →
        (s.spielerDaten sender).hasCommitted = false ∧
          (s'.spielerDaten sender).hasCommitted = true) ∧
    (∀ (keccak : List Nat → Nat) (s : V1.GameState)
        (sender n salt t : Nat) (s' : V1.GameState),
        V1.reveal keccak s sender n salt t = Except.ok s' →
        (s.spielerDaten sender).hasRevealed = false ∧
          (s'.spielerDaten sender).hasRevealed = true) ∧
    (∀ (keccak : List Nat → Nat) (s : V1.GameState)
        (sender t r : Nat) (s' : V1.GameState),
        V1.berechneErgebnisUndErmittleGewinner keccak s sender t r = Except.ok s' →
        s.aktuellePhase = V1.SpielPhase.Berechnung ∧
          s'.aktuellePhase = V1.SpielPhase.Auszahlung) ∧
    (∀ (s : V1.GameState) (sender : Nat) (s' : V1.GameState) (amt : Nat),
        V1.withdrawPrize s sender = Except.ok (s', amt) →
        (s.spielerDaten sender).hasWithdrawn = false ∧
          (s'.spielerDaten sender).hasWithdrawn = true) ∧
    (∀ (s : V1.GameState) (sender : Nat) (s' : V1.GameState) (amt : Nat),
        V1.withdrawServiceFee s sender = Except.ok (s', amt) →
        s.serviceFeeWithdrawn = false ∧ s'.serviceFeeWithdrawn = true) := by
  refine ⟨?_, ?_, ?_, ?_, ?_, ?_, ?_, ?_⟩
  · intro s sender t hp
    rcases hp with hp | hp <;> simp [V1.forceStateTransition, hp]
  · intro s sender t s' hb ha h
    unfold V1.forceStateTransition at h
    repeat' split at h
    all_goals try exact Except.noConfusion h
    all_goals injection h with h
    all_goals subst h
    · rename_i hp _ _; simp [hp]
    · rename_i hp _; simp [hp]
    · rename_i hp _; simp [hp]
    · rename_i hp _ _; simp [hp]
    · rename_i h1 h2 h3 h4
      exfalso
      cases hph : s.aktuellePhase <;> simp_all
  · intro s sender value t s' h
    unfold V1.beitreten at h
    repeat' split at h
    all_goals try exact Except.noConfusion h
    injection h with h; subst h
    simp [V1.setSpieler]
  · intro s sender c t s' h
    unfold V1.commit at h
    repeat' split at h
    all_goals try exact Except.noConfusion h
    rename_i hc _
    injection h with h; subst h
    simp_all [V1.setSpieler]
  · intro keccak s sender n salt t s' h
    unfold V1.reveal at h
    repeat' split at h
    all_goals try exact Except.noConfusion h
    rename_i hr _ _
    injection h with h; subst h
    simp_all [V1.setSpieler]
  · intro keccak s sender t r s' h
    unfold V1.berechneErgebnisUndErmittleGewinner at h
    repeat' split at h
    all_goals try exact Except.noConfusion h
    rename_i hp _ _
    injection h with h; subst h
    simp_all
  · intro s sender s' amt h
    unfold V1.withdrawPrize at h
    repeat' split at h
    all_goals try exact Except.noConfusion h
    rename_i hw
    injection h with h
    injection h with h1 h2
    subst h1
    simp_all [V1.setSpieler]
  · intro s sender s' amt h
    unfold V1.withdrawServiceFee at h
    repeat' split at h
    all_goals try exact Except.noConfusion h
    rename_i hw
    injection h with h
    injection h with h1 h2
    subst h1
    simp_all

/-- C10 (witness): the no-op branch applied to a concrete calculation-phase
state. -/
theorem c10_witness :
    V1.forceStateTransition fixBer0 7 0 = Except.ok fixBer0 :=
  c10_amended.1 fixBer0 7 0 (Or.inl rfl)

/-- C8 (counterexample): player 1 has already joined `fixCommitPhase`
(stake 100 paid), yet a repeated `beitreten` in the `Commit` phase is
rejected with the phase-mismatch reason, not the duplicate-action reason. -/
theorem c8_counterexample :
    (fixCommitPhase.spielerDaten 1).wagerAmount ≠ 0 ∧
    V1.beitreten fixCommitPhase 1 100 0 =
      Except.error "Funktion in dieser Phase nicht erlaubt." ∧
    ("Funktion in dieser Phase nicht erlaubt." : String) ≠
      "Spieler hat bereits teilgenommen." :=
  ⟨by decide, rfl, by decide⟩

/-- C8 (amended): a second `beitreten` from an identity that has already
joined always fails (in every phase, it never succeeds); the rejection
reason is `DuplicateAction` ("Spieler hat bereits teilgenommen.") exactly
in the `Registration` phase before the deadline with the exact stake
attached — otherwise an earlier guard (phase, deadline, or wager check)
rejects the call first. -/
theorem c8_amended :
    (∀ (s : V1.GameState) (sender value t : Nat),
        (s.spielerDaten sender).wagerAmount ≠ 0 →
        ∀ s', V1.beitreten s sender value t ≠ Except.ok s') ∧
    (∀ (s : V1.GameState) (sender value t : Nat),
        s.aktuellePhase = V1.SpielPhase.Registrierung →
        t < s.deadline →
        value = s.WAGER_AMOUNT →
        (s.spielerDaten sender).wagerAmount ≠ 0 →
        V1.beitreten s sender value t =
          Except.error "Spieler hat bereits teilgenommen.") := by
  constructor
  · intro s sender value t hj s' h
    unfold V1.beitreten at h
    repeat' split at h
    all_goals try exact Except.noConfusion h
  · intro s sender value t hp ht hv hj
    unfold V1.beitreten
    rw [if_neg (by simp [hp]), if_neg (by simp [ht]), if_neg (by simp [hv]),
        if_pos hj]

/-- C8 (witness): the duplicate-action rejection on a concrete
registration-phase state with player 1 already joined. -/
theorem c8_witness :
    V1.beitreten fixReg2 1 100 0 =
      Except.error "Spieler hat bereits teilgenommen." :=
  c8_amended.2 fixReg2 1 100 0 rfl (by decide) rfl (by decide)

/-- C1 (counterexample): with only 2 players joined and the registration
deadline reached, `forceStateTransition` reverts with the
insufficient-players reason — it does not move the game into a Cancelled
state (the contract's phase enum has no such state, and no `reclaimWager`
exists in it). -/
theorem c1_counterexample :
    V1.forceStateTransition fixReg2 5 600 =
      Except.error "Nicht genuegend Spieler beigetreten." := rfl

/-- C1 (amended): in `src/contracts/TwoThirdsAverageGame.sol`, a
`forceStateTransition` call after the registration deadline with fewer
than 3 players reverts with "Nicht genuegend Spieler beigetreten." and the
game stays in `Registrierung`; the claimed cancellation behaviour is the
block-deadline variant's: there `advancePhase` moves the game to
`Abgebrochen`, and afterwards every joined player who has not withdrawn
reclaims exactly their original stake exactly once via `reclaimWager`. -/
theorem c1_amended :
    (∀ (s : V1.GameState) (sender t : Nat),
        s.aktuellePhase = V1.SpielPhase.Registrierung →
        t ≥ s.deadline →
        s.spielerListe.length < V1.MIN_PLAYERS →
        V1.forceStateTransition s sender t =
          Except.error "Nicht genuegend Spieler beigetreten.") ∧
    (∀ (s : V2.GameState) (bn : Nat),
        s.aktuellePhase = V2.SpielPhase.Registrierung →
        bn ≥ s.deadlineBlock →
        s.spielerListe.length < V2.MIN_PLAYERS →
        V2.advancePhase s bn =
          Except.ok { s with aktuellePhase := V2.SpielPhase.Abgebrochen }) ∧
    (∀ (s : V2.GameState) (p : Nat),
        s.aktuellePhase = V2.SpielPhase.Abgebrochen →
        (s.spielerDaten p).wagerAmount = s.WAGER_AMOUNT →
        0 < s.WAGER_AMOUNT →
        (s.spielerDaten p).hasWithdrawn = false →
        ∃ s2, V2.reclaimWager s p = Except.ok (s2, s.WAGER_AMOUNT) ∧
          (s2.spielerDaten p).hasWithdrawn = true ∧
          s2.aktuellePhase = V2.SpielPhase.Abgebrochen ∧
          V2.reclaimWager s2 p =
            Except.error "Einsatz bereits zurueckgefordert.") := by
  refine ⟨?_, ?_, ?_⟩
  · intro s sender t hp ht hlen
    simp [V1.forceStateTransition, hp, ht, Nat.not_le.mpr hlen]
  · intro s bn hp hbn hlen
    simp [V2.advancePhase, hp, hbn, hlen]
  · intro s p hp hwa hpos hhw
    refine ⟨V2.setSpieler s p { s.spielerDaten p with hasWithdrawn := true },
      ?_, ?_, ?_, ?_⟩
    · simp [V2.reclaimWager, hp, hwa, hpos, hhw]
    · simp [V2.setSpieler]
    · simp [V2.setSpieler, hp]
    · simp [V2.reclaimWager, V2.setSpieler, hp, hwa, hpos]

/-- C1 (witness): the amended behaviour on concrete two-player states — V1
reverts; V2 cancels; in the cancelled V2 state player 1 reclaims the exact
stake once. -/
theorem c1_witness :
    V1.forceStateTransition fixReg2 4 700 =
      Except.error "Nicht genuegend Spieler beigetreten." ∧
    V2.advancePhase v2Reg2 10 =
      Except.ok { v2Reg2 with aktuellePhase := V2.SpielPhase.Abgebrochen } ∧
    ∃ s2, V2.reclaimWager v2Abg 1 = Except.ok (s2, v2Abg.WAGER_AMOUNT) ∧
      (s2.spielerDaten 1).hasWithdrawn = true ∧
      s2.aktuellePhase = V2.SpielPhase.Abgebrochen ∧
      V2.reclaimWager s2 1 =
        Except.error "Einsatz bereits zurueckgefordert." :=
  ⟨c1_amended.1 fixReg2 4 700 rfl (by decide) (by decide),
   c1_amended.2.1 v2Reg2 10 rfl (by decide) (by decide),
   c1_amended.2.2 v2Abg 1 rfl rfl (by decide) rfl⟩

/-- C5 (counterexample): in the `Berechnung` phase with zero reveals,
`berechneErgebnisUndErmittleGewinner` reverts — a hard failure, not a
transition to a Cancelled state (which this contract does not have). -/
theorem c5_counterexample :
    V1.berechneErgebnisUndErmittleGewinner (fun _ => 0) fixBer0 0 0 0 =
      Except.error
        "Niemand hat aufgedeckt, Spiel kann nicht ausgewertet werden." := rfl

/-- C5 (amended): in `src/contracts/TwoThirdsAverageGame.sol` the winner
computation with zero reveals reverts with "Niemand hat aufgedeckt…"; the
claimed cancellation is the block-deadline variant's behaviour, whose
`calculateResult` moves the game to `Abgebrochen` on zero reveals. -/
theorem c5_amended :
    (∀ (keccak : List Nat → Nat) (s : V1.GameState) (t r : Nat),
        s.aktuellePhase = V1.SpielPhase.Berechnung →
        V1.countRevealed s = 0 →
        V1.berechneErgebnisUndErmittleGewinner keccak s s.owner t r =
          Except.error
            "Niemand hat aufgedeckt, Spiel kann nicht ausgewertet werden.") ∧
    (∀ (keccak : List Nat → Nat) (s : V2.GameState) (t r : Nat),
        s.aktuellePhase = V2.SpielPhase.Berechnung →
        V2.countRevealed s = 0 →
        V2.calculateResult keccak s t r =
          Except.ok { s with aktuellePhase := V2.SpielPhase.Abgebrochen }) := by
  constructor
  · intro keccak s t r hp hn
    simp [V1.berechneErgebnisUndErmittleGewinner, hp, hn]
  · intro keccak s t r hp hn
    simp [V2.calculateResult, hp, hn]

/-- C5 (witness): zero-reveal behaviour on concrete calculation-phase
states of both variants. -/
theorem c5_witness :
    V1.berechneErgebnisUndErmittleGewinner kLen fixBer0 0 5 7 =
      Except.error
        "Niemand hat aufgedeckt, Spiel kann nicht ausgewertet werden." ∧
    V2.calculateResult kLen v2Ber0 5 7 =
      Except.ok { v2Ber0 with aktuellePhase := V2.SpielPhase.Abgebrochen } :=
  ⟨c5_amended.1 kLen fixBer0 5 7 rfl rfl, c5_amended.2 kLen v2Ber0 5 7 rfl rfl⟩

/-- C2 (counterexample): starting from a concrete payout-phase state, the
winner's withdrawal and then the fee withdrawal each succeed and set both
one-shot flags, yet the phase is still `Auszahlung` — neither withdrawal
performed the transition to `Abgeschlossen`. -/
theorem c2_counterexample :
    V1.withdrawPrize fixPayout 1 = Except.ok (c2s1, 270) ∧
    V1.withdrawServiceFee c2s1 0 = Except.ok (c2s2, 30) ∧
    (c2s2.spielerDaten c2s2.winner).hasWithdrawn = true ∧
    c2s2.serviceFeeWithdrawn = true ∧
    c2s2.aktuellePhase = V1.SpielPhase.Auszahlung ∧
    V1.SpielPhase.Auszahlung ≠ V1.SpielPhase.Abgeschlossen :=
  ⟨rfl, rfl, rfl, rfl, rfl, by decide⟩

/-- C2 (amended): in `src/contracts/TwoThirdsAverageGame.sol` neither
withdrawal changes the phase; `Auszahlung → Abgeschlossen` requires one
further `forceStateTransition` call by the game master, which succeeds
exactly when both one-shot withdrawals have happened.  The claimed
order-independent in-withdrawal transition is the block-deadline variant's
behaviour, proved here for it: in either order, the second of the two
withdrawals completes the game. -/
theorem c2_amended :
    (∀ (s : V1.GameState) (sender : Nat) (s' : V1.GameState) (amt : Nat),
        V1.withdrawPrize s sender = Except.ok (s', amt) →
        s'.aktuellePhase = s.aktuellePhase) ∧
    (∀ (s : V1.GameState) (sender : Nat) (s' : V1.GameState) (amt : Nat),
        V1.withdrawServiceFee s sender = Except.ok (s', amt) →
        s'.aktuellePhase = s.aktuellePhase) ∧
    (∀ (s : V1.GameState) (t : Nat),
        s.aktuellePhase = V1.SpielPhase.Auszahlung →
        s.serviceFeeWithdrawn = true →
        (s.spielerDaten s.winner).hasWithdrawn = true →
        V1.forceStateTransition s s.owner t =
          Except.ok { s with aktuellePhase := V1.SpielPhase.Abgeschlossen }) ∧
    (∀ (s : V1.GameState) (sender t : Nat),
        s.aktuellePhase = V1.SpielPhase.Auszahlung →
        ¬ (s.serviceFeeWithdrawn = true ∧
            (s.spielerDaten s.winner).hasWithdrawn = true) →
        ∀ s', V1.forceStateTransition s sender t ≠ Except.ok s') ∧
    (∀ (s : V2.GameState),
        s.aktuellePhase = V2.SpielPhase.Auszahlung →
        s.winner ≠ 0 →
        (s.spielerDaten s.winner).hasWithdrawn = false →
        s.serviceFeeWithdrawn = false →
        (∃ s1 a1 s2 a2,
          V2.withdrawPrize s s.winner = Except.ok (s1, a1) ∧
          V2.withdrawServiceFee s1 s.owner = Except.ok (s2, a2) ∧
          s2.aktuellePhase = V2.SpielPhase.Abgeschlossen) ∧
        (∃ s1 a1 s2 a2,
          V2.withdrawServiceFee s s.owner = Except.ok (s1, a1) ∧
          V2.withdrawPrize s1 s.winner = Except.ok (s2, a2) ∧
          s2.aktuellePhase = V2.SpielPhase.Abgeschlossen)) := by
  refine ⟨?_, ?_, ?_, ?_, ?_⟩
  · intro s sender s' amt h
    unfold V1.withdrawPrize at h
    repeat' split at h
    all_goals try exact Except.noConfusion h
    injection h with h
    injection h with h1 h2
    subst h1
    simp [V1.setSpieler]
  · intro s sender s' amt h
    unfold V1.withdrawServiceFee at h
    repeat' split at h
    all_goals try exact Except.noConfusion h
    injection h with h
    injection h with h1 h2
    subst h1
    rfl
  · intro s t hp hf hw
    simp [V1.forceStateTransition, hp, hf, hw]
  · intro s sender t hp hflags s' h
    unfold V1.forceStateTransition at h
    repeat' split at h
    all_goals try exact Except.noConfusion h
    all_goals simp_all
  · intro s hp hw0 hwd hf
    constructor
    · refine ⟨V2.setSpieler s s.winner
          { s.spielerDaten s.winner with hasWithdrawn := true },
        s.pot - s.pot * s.SERVICE_FEE_PERCENTAGE / 100,
        { V2.setSpieler s s.winner
            { s.spielerDaten s.winner with hasWithdrawn := true } with
          serviceFeeWithdrawn := true,
          aktuellePhase := V2.SpielPhase.Abgeschlossen },
        s.pot * s.SERVICE_FEE_PERCENTAGE / 100, ?_, ?_, rfl⟩
      · simp [V2.withdrawPrize, hp, hwd, hf]
      · simp [V2.withdrawServiceFee, V2.setSpieler, hp, hf, hw0]
    · refine ⟨{ s with serviceFeeWithdrawn := true },
        s.pot * s.SERVICE_FEE_PERCENTAGE / 100,
        { V2.setSpieler { s with serviceFeeWithdrawn := true } s.winner
            { s.spielerDaten s.winner with hasWithdrawn := true } with
          aktuellePhase := V2.SpielPhase.Abgeschlossen },
        s.pot - s.pot * s.SERVICE_FEE_PERCENTAGE / 100, ?_, ?_, rfl⟩
      · simp [V2.withdrawServiceFee, hp, hf, hwd, hw0]
      · simp [V2.withdrawPrize, V2.setSpieler, hp, hwd]

/-- C7: in the `Auszahlung` phase, `withdrawPrize` succeeds exactly for
the winner before their one-shot flag is set, paying exactly
`pot - pot * feePercent / 100`; a successful call establishes the
`winnerPaid` invariant, which every operation preserves (over arbitrary
call sequences), and under which every further `withdrawPrize` call fails
— so the prize can never be paid twice. -/
theorem c7_withdraw_prize_once :
    (∀ (s : V1.GameState) (sender : Nat),
        s.aktuellePhase = V1.SpielPhase.Auszahlung →
        sender = s.winner →
        (s.spielerDaten sender).hasWithdrawn = false →
        V1.withdrawPrize s sender =
          Except.ok (V1.setSpieler s sender
              { s.spielerDaten sender with hasWithdrawn := true },
            s.pot - s.pot * s.SERVICE_FEE_PERCENTAGE / 100)) ∧
    (∀ (s : V1.GameState) (sender : Nat), sender ≠ s.winner →
        ∀ (s' : V1.GameState) (amt : Nat),
          V1.withdrawPrize s sender ≠ Except.ok (s', amt)) ∧
    (∀ (s : V1.GameState) (sender : Nat) (s' : V1.GameState) (amt : Nat),
        V1.withdrawPrize s sender = Except.ok (s', amt) → winnerPaid s') ∧
    (∀ (keccak : List Nat → Nat) (s : V1.GameState) (o : V1.Op),
        winnerPaid s → winnerPaid (V1.step keccak s o)) ∧
    (∀ (keccak : List Nat → Nat) (s : V1.GameState) (ops : List V1.Op),
        winnerPaid s → winnerPaid (V1.exec keccak s ops)) ∧
    (∀ (s : V1.GameState), winnerPaid s →
        ∀ (sender : Nat) (s' : V1.GameState) (amt : Nat),
          V1.withdrawPrize s sender ≠ Except.ok (s', amt)) := by
  have hko : ∀ (s : V1.GameState), winnerPaid s →
      ∀ (sender : Nat) (s' : V1.GameState) (amt : Nat),
        V1.withdrawPrize s sender ≠ Except.ok (s', amt) := by
    intro s hs sender s' amt h
    obtain ⟨hph, hsw, hnw, -, -⟩ := withdrawPrize_ok_shape h
    rw [hsw, hs.2] at hnw
    exact Bool.noConfusion hnw
  have hstep : ∀ (keccak : List Nat → Nat) (s : V1.GameState) (o : V1.Op),
      winnerPaid s → winnerPaid (V1.step keccak s o) := by
    intro keccak s o hs
    cases o with
    | beitreten sender value t =>
        show winnerPaid (V1.orElseState (V1.beitreten s sender value t) s)
        cases hr : V1.beitreten s sender value t with
        | error e => exact hs
        | ok s2 =>
            have hph := (beitreten_ok_shape hr).1
            rcases hs.1 with hp | hp <;> rw [hp] at hph <;>
              exact V1.SpielPhase.noConfusion hph
    | commit sender c t =>
        show winnerPaid (V1.orElseState (V1.commit s sender c t) s)
        cases hr : V1.commit s sender c t with
        | error e => exact hs
        | ok s2 =>
            have hph := (commit_ok_shape hr).1
            rcases hs.1 with hp | hp <;> rw [hp] at hph <;>
              exact V1.SpielPhase.noConfusion hph
    | reveal sender number salt t =>
        show winnerPaid
          (V1.orElseState (V1.reveal keccak s sender number salt t) s)
        cases hr : V1.reveal keccak s sender number salt t with
        | error e => exact hs
        | ok s2 =>
            have hph := (reveal_ok_shape hr).1
            rcases hs.1 with hp | hp <;> rw [hp] at hph <;>
              exact V1.SpielPhase.noConfusion hph
    | forceStateTransition sender t =>
        show winnerPaid (V1.orElseState (V1.forceStateTransition s sender t) s)
        cases hr : V1.forceStateTransition s sender t with
        | error e => exact hs
        | ok s2 =>
            show winnerPaid s2
            rcases force_ok_shape hr with ⟨hp, h2⟩ | ⟨hp, h2⟩ | ⟨hp, h2⟩ |
              ⟨hp, h2⟩ | h2
            · rcases hs.1 with hq | hq <;> rw [hq] at hp <;>
                exact V1.SpielPhase.noConfusion hp
            · rcases hs.1 with hq | hq <;> rw [hq] at hp <;>
                exact V1.SpielPhase.noConfusion hp
            · rcases hs.1 with hq | hq <;> rw [hq] at hp <;>
                exact V1.SpielPhase.noConfusion hp
            · subst h2; exact ⟨Or.inr rfl, hs.2⟩
            · subst h2; exact hs
    | berechne sender t r =>
        show winnerPaid (V1.orElseState
          (V1.berechneErgebnisUndErmittleGewinner keccak s sender t r) s)
        cases hr : V1.berechneErgebnisUndErmittleGewinner keccak s sender t r with
        | error e => exact hs
        | ok s2 =>
            have hph := (berechne_ok_shape hr).2.1
            rcases hs.1 with hp | hp <;> rw [hp] at hph <;>
              exact V1.SpielPhase.noConfusion hph
    | withdrawPrize sender =>
        show winnerPaid
          (V1.orElseState ((V1.withdrawPrize s sender).map Prod.fst) s)
        cases hr : V1.withdrawPrize s sender with
        | error e => exact hs
        | ok p =>
            obtain ⟨s2, amt⟩ := p
            exact absurd hr (hko s hs sender s2 amt)
    | withdrawServiceFee sender =>
        show winnerPaid
          (V1.orElseState ((V1.withdrawServiceFee s sender).map Prod.fst) s)
        cases hr : V1.withdrawServiceFee s sender with
        | error e => exact hs
        | ok p =>
            obtain ⟨s2, amt⟩ := p
            obtain ⟨-, -, -, h4, -⟩ := withdrawServiceFee_ok_shape hr
            show winnerPaid s2
            subst h4
            exact hs
  refine ⟨?_, ?_, ?_, hstep, ?_, hko⟩
  · intro s sender hp hsw hw
    subst hsw
    simp [V1.withdrawPrize, hp, hw]
  · intro s sender hne s' amt h
    exact hne (withdrawPrize_ok_shape h).2.1
  · intro s sender s' amt h
    obtain ⟨hph, hsw, hnw, hS, -⟩ := withdrawPrize_ok_shape h
    subst hS; subst hsw
    exact ⟨Or.inl hph, by simp [V1.setSpieler]⟩
  · intro keccak s ops
    induction ops generalizing s with
    | nil => intro hs; exact hs
    | cons o rest ih =>
        intro hs
        exact ih (V1.step keccak s o) (hstep keccak s o hs)

/-- C7 (witness): the exact payout on a concrete payout state (pot 300,
fee 10% ⇒ the winner receives 270). -/
theorem c7_witness :
    V1.withdrawPrize fixPayout 1 =
      Except.ok (V1.setSpieler fixPayout 1
          { fixPayout.spielerDaten 1 with hasWithdrawn := true },
        fixPayout.pot - fixPayout.pot * fixPayout.SERVICE_FEE_PERCENTAGE / 100) :=
  c7_withdraw_prize_once.1 fixPayout 1 rfl rfl rfl

/-- C9: the pot invariant `pot = stakeAmount * joinCount` holds for a
freshly constructed game and is preserved by every operation and every
call sequence; moreover no operation other than `beitreten` ever changes
the pot (V1 in fact never decreases `pot`, even during payouts, so the
invariant holds in all reachable states, in particular up to the end of
registration). -/
theorem c9_pot_invariant :
    (∀ (wager fee ownr t : Nat) (s0 : V1.GameState),
        V1.mkGame wager fee ownr t = Except.ok s0 → potInv s0) ∧
    (∀ (keccak : List Nat → Nat) (s : V1.GameState) (o : V1.Op),
        potInv s → potInv (V1.step keccak s o)) ∧
    (∀ (keccak : List Nat → Nat) (s : V1.GameState) (ops : List V1.Op),
        potInv s → potInv (V1.exec keccak s ops)) ∧
    (∀ (keccak : List Nat → Nat) (s : V1.GameState) (o : V1.Op),
        (∀ sender value t, o ≠ V1.Op.beitreten sender value t) →
        (V1.step keccak s o).pot = s.pot) := by
  have hstep : ∀ (keccak : List Nat → Nat) (s : V1.GameState) (o : V1.Op),
      potInv s → potInv (V1.step keccak s o) := by
    intro keccak s o hs
    cases o with
    | beitreten sender value t =>
        show potInv (V1.orElseState (V1.beitreten s sender value t) s)
        cases hr : V1.beitreten s sender value t with
        | error e => exact hs
        | ok s2 =>
            obtain ⟨-, hval, hS⟩ := beitreten_ok_shape hr
            show potInv s2
            subst hS
            unfold potInv at hs ⊢
            simp only [V1.setSpieler, List.length_append, List.length_cons,
              List.length_nil]
            rw [hval, hs]
            ring
    | commit sender c t =>
        show potInv (V1.orElseState (V1.commit s sender c t) s)
        cases hr : V1.commit s sender c t with
        | error e => exact hs
        | ok s2 =>
            obtain ⟨-, hS⟩ := commit_ok_shape hr
            show potInv s2
            subst hS; exact hs
    | reveal sender number salt t =>
        show potInv (V1.orElseState (V1.reveal keccak s sender number salt t) s)
        cases hr : V1.reveal keccak s sender number salt t with
        | error e => exact hs
        | ok s2 =>
            obtain ⟨-, -, hS⟩ := reveal_ok_shape hr
            show potInv s2
            subst hS; exact hs
    | forceStateTransition sender t =>
        show potInv (V1.orElseState (V1.forceStateTransition s sender t) s)
        cases hr : V1.forceStateTransition s sender t with
        | error e => exact hs
        | ok s2 =>
            show potInv s2
            rcases force_ok_shape hr with ⟨-, hS⟩ | ⟨-, hS⟩ | ⟨-, hS⟩ |
              ⟨-, hS⟩ | hS <;> subst hS <;> exact hs
    | berechne sender t r =>
        show potInv (V1.orElseState
          (V1.berechneErgebnisUndErmittleGewinner keccak s sender t r) s)
        cases hr : V1.berechneErgebnisUndErmittleGewinner keccak s sender t r with
        | error e => exact hs
        | ok s2 =>
            obtain ⟨-, -, -, -, hS⟩ := berechne_ok_shape hr
            show potInv s2
            subst hS; exact hs
    | withdrawPrize sender =>
        show potInv
          (V1.orElseState ((V1.withdrawPrize s sender).map Prod.fst) s)
        cases hr : V1.withdrawPrize s sender with
        | error e => exact hs
        | ok p =>
            obtain ⟨s2, amt⟩ := p
            obtain ⟨-, -, -, hS, -⟩ := withdrawPrize_ok_shape hr
            show potInv s2
            subst hS; exact hs
    | withdrawServiceFee sender =>
        show potInv
          (V1.orElseState ((V1.withdrawServiceFee s sender).map Prod.fst) s)
        cases hr : V1.withdrawServiceFee s sender with
        | error e => exact hs
        | ok p =>
            obtain ⟨s2, amt⟩ := p
            obtain ⟨-, -, -, hS, -⟩ := withdrawServiceFee_ok_shape hr
            show potInv s2
            subst hS; exact hs
  refine ⟨?_, hstep, ?_, ?_⟩
  · intro wager fee ownr t s0 h
    unfold V1.mkGame at h
    repeat' split at h
    all_goals try exact Except.noConfusion h
    injection h with h; subst h
    simp [potInv]
  · intro keccak s ops
    induction ops generalizing s with
    | nil => intro hs; exact hs
    | cons o rest ih =>
        intro hs
        exact ih (V1.step keccak s o) (hstep keccak s o hs)
  · intro keccak s o hne
    cases o with
    | beitreten sender value t => exact absurd rfl (hne sender value t)
    | commit sender c t =>
        show (V1.orElseState (V1.commit s sender c t) s).pot = s.pot
        cases hr : V1.commit s sender c t with
        | error e => rfl
        | ok s2 =>
            obtain ⟨-, hS⟩ := commit_ok_shape hr
            subst hS; rfl
    | reveal sender number salt t =>
        show (V1.orElseState
          (V1.reveal keccak s sender number salt t) s).pot = s.pot
        cases hr : V1.reveal keccak s sender number salt t with
        | error e => rfl
        | ok s2 =>
            obtain ⟨-, -, hS⟩ := reveal_ok_shape hr
            subst hS; rfl
    | forceStateTransition sender t =>
        show (V1.orElseState (V1.forceStateTransition s sender t) s).pot = s.pot
        cases hr : V1.forceStateTransition s sender t with
        | error e => rfl
        | ok s2 =>
            rcases force_ok_shape hr with ⟨-, hS⟩ | ⟨-, hS⟩ | ⟨-, hS⟩ |
              ⟨-, hS⟩ | hS <;> subst hS <;> rfl
    | berechne sender t r =>
        show (V1.orElseState
          (V1.berechneErgebnisUndErmittleGewinner keccak s sender t r) s).pot
            = s.pot
        cases hr : V1.berechneErgebnisUndErmittleGewinner keccak s sender t r with
        | error e => rfl
        | ok s2 =>
            obtain ⟨-, -, -, -, hS⟩ := berechne_ok_shape hr
            subst hS; rfl
    | withdrawPrize sender =>
        show (V1.orElseState
          ((V1.withdrawPrize s sender).map Prod.fst) s).pot = s.pot
        cases hr : V1.withdrawPrize s sender with
        | error e => rfl
        | ok p =>
            obtain ⟨s2, amt⟩ := p
            obtain ⟨-, -, -, hS, -⟩ := withdrawPrize_ok_shape hr
            subst hS; rfl
    | withdrawServiceFee sender =>
        show (V1.orElseState
          ((V1.withdrawServiceFee s sender).map Prod.fst) s).pot = s.pot
        cases hr : V1.withdrawServiceFee s sender with
        | error e => rfl
        | ok p =>
            obtain ⟨s2, amt⟩ := p
            obtain ⟨-, -, -, hS, -⟩ := withdrawServiceFee_ok_shape hr
            subst hS; rfl

/-- C9 (witness): the invariant evaluated over a concrete trace — a fresh
game followed by two successful joins (pot 200 = 100 × 2). -/
theorem c9_witness :
    potInv (V1.exec kLen c9init
      [V1.Op.beitreten 1 100 10, V1.Op.beitreten 2 100 20]) :=
  c9_pot_invariant.2.2.1 kLen c9init
    [V1.Op.beitreten 1 100 10, V1.Op.beitreten 2 100 20]
    (c9_pot_invariant.1 100 10 0 0 c9init rfl)

/-- C3: the winner computation records `averageValue = floor(sum / n)` and
`targetValue = floor(averageValue * 2 / 3)` (truncating division) and
selects a revealed player whose distance to the target is minimal; on the
concrete state with revealed numbers `[100, 200, 300]` it records
averageValue 200, targetValue 133, winningDistance 33, and the winner is
the player (address 10) who revealed 100. -/
theorem c3_winner_computation :
    (∀ (keccak : List Nat → Nat) (s : V1.GameState) (sender t r : Nat)
        (s' : V1.GameState),
        V1.berechneErgebnisUndErmittleGewinner keccak s sender t r =
          Except.ok s' →
        s'.averageValue = V1.sumRevealed s / V1.countRevealed s ∧
        s'.targetValue = s'.averageValue * 2 / 3 ∧
        (s.spielerDaten s'.winner).hasRevealed = true ∧
        V1.differenz (s.spielerDaten s'.winner).revealedNumber s'.targetValue =
          s'.winningDistance ∧
        (∀ a ∈ s.spielerListe, (s.spielerDaten a).hasRevealed = true →
          s'.winningDistance ≤
            V1.differenz (s.spielerDaten a).revealedNumber s'.targetValue)) ∧
    (∀ (keccak : List Nat → Nat) (t r : Nat),
        (V1.berechneErgebnisUndErmittleGewinner keccak fixC3 0 t r).map
          (fun s2 => (s2.averageValue, s2.targetValue, s2.winningDistance,
            s2.winner)) = Except.ok (200, 133, 33, 10)) := by
  constructor
  · intro keccak s sender t r s' h
    obtain ⟨-, -, -, hlen, hS⟩ := berechne_ok_shape h
    subst hS
    have hwmem : V1.winnerOf keccak s t r ∈ V1.pwsOf s := by
      unfold V1.winnerOf
      split
      · rename_i h1
        exact getD_mem_of_lt _ _ _ (by omega)
      · exact getD_mem_of_lt _ _ _
          (Nat.mod_lt _ (Nat.pos_of_ne_zero hlen))
    have hspec := tieLoop_go_spec s (V1.targetOf s) s.spielerListe
      V1.UINT256_MAX [] (by intro b hb; cases hb)
    refine ⟨rfl, rfl, (hspec.1 _ hwmem).1, (hspec.1 _ hwmem).2, ?_⟩
    intro a ha hrev
    exact hspec.2.2 a ha hrev
  · intro keccak t r
    rfl

/-- C3 (witness): the general characterisation applied to the
`[100, 200, 300]` state. -/
theorem c3_witness :
    c3res.averageValue = V1.sumRevealed fixC3 / V1.countRevealed fixC3 ∧
    c3res.targetValue = c3res.averageValue * 2 / 3 ∧
    (fixC3.spielerDaten c3res.winner).hasRevealed = true ∧
    V1.differenz (fixC3.spielerDaten c3res.winner).revealedNumber
      c3res.targetValue = c3res.winningDistance ∧
    (∀ a ∈ fixC3.spielerListe, (fixC3.spielerDaten a).hasRevealed = true →
      c3res.winningDistance ≤
        V1.differenz (fixC3.spielerDaten a).revealedNumber c3res.targetValue) :=
  c3_winner_computation.1 (fun _ => 0) fixC3 0 0 0 c3res rfl

/-- C4 (counterexample): on a concrete two-way tie (players 1 and 3, pot
300) with the hash instantiated as the packed-argument count, the code
selects player 1 — it hashes only `(timestamp, prevrandao)` — while the
spec's formula `H(time ‖ prevrandao ‖ pot) mod tieSetSize` selects
player 3.  The pot is not an input of the tie-break hash in this
contract. -/
theorem c4_counterexample :
    (V1.berechneErgebnisUndErmittleGewinner kLen fixTie 0 0 0).map
        (fun s2 => (s2.potentialWinners, s2.winner)) =
      Except.ok ([1, 3], 1) ∧
    specTieIndex kLen 0 0 fixTie.pot 2 = 1 ∧
    List.getD [1, 3] 1 0 = 3 ∧
    (1 : Nat) ≠ 3 :=
  ⟨rfl, rfl, rfl, by decide⟩

/-- C4 (amended): in `src/contracts/TwoThirdsAverageGame.sol` the
tie-break selects `potentialWinners[keccak(timestamp ‖ prevrandao) mod
tieSetSize]` — the pot value is **not** hashed in — so exactly one tied
player is selected, the selection does not depend on the pot, and it is
reproducible: equal hash inputs give identical results.  The pot-inclusive
formula of the claim is the block-deadline variant's, proved for it. -/
theorem c4_amended :
    (∀ (keccak : List Nat → Nat) (s : V1.GameState) (sender t r : Nat)
        (s' : V1.GameState),
        V1.berechneErgebnisUndErmittleGewinner keccak s sender t r =
          Except.ok s' →
        2 ≤ s'.potentialWinners.length →
        s'.winner = s'.potentialWinners.getD
          (keccak [t, r] % s'.potentialWinners.length) 0 ∧
        s'.winner ∈ s'.potentialWinners) ∧
    (∀ (keccak : List Nat → Nat) (s : V1.GameState) (sender t r p' : Nat),
        (V1.berechneErgebnisUndErmittleGewinner keccak
            { s with pot := p' } sender t r).map (fun s2 => s2.winner) =
        (V1.berechneErgebnisUndErmittleGewinner keccak s sender t r).map
          (fun s2 => s2.winner)) ∧
    (∀ (keccak : List Nat → Nat) (s : V1.GameState) (sender t r t2 r2 : Nat),
        keccak [t, r] = keccak [t2, r2] →
        V1.berechneErgebnisUndErmittleGewinner keccak s sender t r =
          V1.berechneErgebnisUndErmittleGewinner keccak s sender t2 r2) ∧
    (∀ (keccak : List Nat → Nat) (s : V2.GameState) (t r : Nat)
        (s' : V2.GameState),
        V2.calculateResult keccak s t r = Except.ok s' →
        V2.countRevealed s ≠ 0 →
        2 ≤ s'.potentialWinners.length →
        s'.winner = s'.potentialWinners.getD
          (specTieIndex keccak t r s.pot s'.potentialWinners.length) 0) := by
  refine ⟨?_, ?_, ?_, ?_⟩
  · intro keccak s sender t r s' h hlen2
    obtain ⟨-, -, -, hlen, hS⟩ := berechne_ok_shape h
    subst hS
    have hlen2' : 2 ≤ (V1.pwsOf s).length := hlen2
    constructor
    · show V1.winnerOf keccak s t r = _
      unfold V1.winnerOf
      rw [if_neg (by omega)]
    · show V1.winnerOf keccak s t r ∈ V1.pwsOf s
      unfold V1.winnerOf
      rw [if_neg (by omega)]
      exact getD_mem_of_lt _ _ _ (Nat.mod_lt _ (by omega))
  · intro keccak s sender t r p'
    have h1 : V1.countRevealed { s with pot := p' } = V1.countRevealed s := rfl
    have h2 : V1.pwsOf { s with pot := p' } = V1.pwsOf s := rfl
    have h3 : V1.winnerOf keccak { s with pot := p' } t r =
        V1.winnerOf keccak s t r := rfl
    unfold V1.berechneErgebnisUndErmittleGewinner
    rw [h1, h2, h3]
    split_ifs <;> rfl
  · intro keccak s sender t r t2 r2 hk
    unfold V1.berechneErgebnisUndErmittleGewinner V1.winnerOf
    rw [hk]
  · intro keccak s t r s' h hn hlen2
    unfold V2.calculateResult at h
    repeat' split at h
    all_goals try exact Except.noConfusion h
    injection h with h; subst h
    have hlen2' : 2 ≤ (V2.pwsOf s).length := hlen2
    show V2.winnerOf keccak s t r = _
    unfold V2.winnerOf specTieIndex
    rw [if_neg (by omega)]

/-- C4 (witness): the amended V1 selection rule evaluated on the concrete
tie state (the index is `kLen [0,0] % 2 = 0`, selecting player 1). -/
theorem c4_witness :
    c4res.winner = c4res.potentialWinners.getD
      (kLen [0, 0] % c4res.potentialWinners.length) 0 ∧
    c4res.winner ∈ c4res.potentialWinners :=
  c4_amended.1 kLen fixTie 0 0 0 c4res rfl (by decide)

/-- C6 (counterexample): player 1 committed the hash of the out-of-range
number 1001 (with salt 7); the reveal of exactly that pair hash-matches the
stored commitment, yet the call fails — and with the range rejection, not
the commitment-mismatch one.  So "succeeds iff the hash matches" and "any
other pair fails with commitment-mismatch" both fail on out-of-range
numbers. -/
theorem c6_counterexample :
    kSum1 [1001, 7, 1] = (fixRevealOOR.spielerDaten 1).commitment ∧
    V1.reveal kSum1 fixRevealOOR 1 1001 7 0 =
      Except.error "Zahl muss zwischen 0 und 1000 liegen." ∧
    ("Zahl muss zwischen 0 und 1000 liegen." : String) ≠
      "Ungueltiger Reveal. Zahl oder Salt sind falsch." :=
  ⟨rfl, rfl, by decide⟩

/-- C6 (amended): for a committed, not-yet-revealed player in the `Reveal`
phase before the deadline, a `reveal(number, salt)` call **with
`number ≤ 1000`** succeeds iff `H(number ‖ salt ‖ caller)` equals the
stored commitment; on a hash mismatch it fails with the
commitment-mismatch rejection (leaving the record unchanged, since a
revert rolls back, so the player may retry until the deadline); out-of-range
numbers are rejected by the range guard regardless of the commitment.  A
successful call records the number and sets `hasRevealed`. -/
theorem c6_amended :
    ∀ (keccak : List Nat → Nat) (s : V1.GameState) (sender number salt t : Nat),
      s.aktuellePhase = V1.SpielPhase.Reveal →
      t < s.deadline →
      0 < (s.spielerDaten sender).wagerAmount →
      (s.spielerDaten sender).hasCommitted = true →
      (s.spielerDaten sender).hasRevealed = false →
      number ≤ 1000 →
      ((∃ s', V1.reveal keccak s sender number salt t = Except.ok s') ↔
        keccak [number, salt, sender] = (s.spielerDaten sender).commitment) ∧
      (keccak [number, salt, sender] ≠ (s.spielerDaten sender).commitment →
        V1.reveal keccak s sender number salt t =
          Except.error "Ungueltiger Reveal. Zahl oder Salt sind falsch.") ∧
      (∀ s', V1.reveal keccak s sender number salt t = Except.ok s' →
        (s'.spielerDaten sender).hasRevealed = true ∧
        (s'.spielerDaten sender).revealedNumber = number) := by
  intro keccak s sender number salt t hp ht hw hc hr hn
  have hred : V1.reveal keccak s sender number salt t =
      if ¬ keccak [number, salt, sender] = (s.spielerDaten sender).commitment
      then Except.error "Ungueltiger Reveal. Zahl oder Salt sind falsch."
      else Except.ok (V1.setSpieler s sender
            { s.spielerDaten sender with
              revealedNumber := number, hasRevealed := true }) := by
    unfold V1.reveal
    rw [if_neg (by simp [hp]), if_neg (by simp [ht]), if_neg (by simp [hw]),
        if_neg (by simp [hc]), if_neg (by simp [hr]), if_neg (by simp [hn])]
  refine ⟨?_, ?_, ?_⟩
  · constructor
    · rintro ⟨s', hs⟩
      by_contra hne
      rw [hred, if_pos hne] at hs
      exact Except.noConfusion hs
    · intro heq
      exact ⟨_, by rw [hred, if_neg (not_not_intro heq)]⟩
  · intro hne
    rw [hred, if_pos hne]
  · intro s' h
    rw [hred] at h
    split at h
    · exact Except.noConfusion h
    · injection h with h; subst h
      simp [V1.setSpieler]

/-- C6 (witness): with the same concrete hash, the in-range number 1000
with salt 8 also matches player 1's stored commitment, and the amended
equivalence applies to it. -/
theorem c6_witness :
    ((∃ s', V1.reveal kSum1 fixRevealOOR 1 1000 8 0 = Except.ok s') ↔
      kSum1 [1000, 8, 1] = (fixRevealOOR.spielerDaten 1).commitment) ∧
    (kSum1 [1000, 8, 1] ≠ (fixRevealOOR.spielerDaten 1).commitment →
      V1.reveal kSum1 fixRevealOOR 1 1000 8 0 =
        Except.error "Ungueltiger Reveal. Zahl oder Salt sind falsch.") ∧
    (∀ s', V1.reveal kSum1 fixRevealOOR 1 1000 8 0 = Except.ok s' →
      (s'.spielerDaten 1).hasRevealed = true ∧
      (s'.spielerDaten 1).revealedNumber = 1000) :=
  c6_amended kSum1 fixRevealOOR 1 1000 8 0 rfl (by decide) (by decide) rfl rfl
    (by decide)

/-- C2 (witness): the owner's closing `forceStateTransition` on the
concrete fully-withdrawn V1 state, and the V2 order-independent completion
on a concrete payout state. -/
theorem c2_witness :
    V1.forceStateTransition c2s2 0 42 =
      Except.ok { c2s2 with aktuellePhase := V1.SpielPhase.Abgeschlossen } ∧
    ((∃ s1 a1 s2 a2,
        V2.withdrawPrize v2Payout v2Payout.winner = Except.ok (s1, a1) ∧
        V2.withdrawServiceFee s1 v2Payout.owner = Except.ok (s2, a2) ∧
        s2.aktuellePhase = V2.SpielPhase.Abgeschlossen) ∧
     (∃ s1 a1 s2 a2,
        V2.withdrawServiceFee v2Payout v2Payout.owner = Except.ok (s1, a1) ∧
        V2.withdrawPrize s1 v2Payout.winner = Except.ok (s2, a2) ∧
        s2.aktuellePhase = V2.SpielPhase.Abgeschlossen)) :=
  ⟨c2_amended.2.2.1 c2s2 42 rfl rfl rfl,
   c2_amended.2.2.2.2 v2Payout rfl (by decide) rfl rfl⟩

end TTA
